import Mathlib

/-!
Shallow embedding of the core of the regulatory-chatbot backend:
the session store and token verification (AuthService), the chat
orchestrator (ChatService.processChatRequest), the research pipeline
(performResearchAsync, cleanCitationReferences, validateCitationUrls)
and the websocket connection registry (WebSocketService), together
with theorems about the behaviour the specification ascribes to them.

Modelling conventions:
JavaScript Map objects become association lists with unique keys
(uniqueness is a hypothesis where a theorem needs it); thrown values
become an explicit error type; asynchronous calls to collaborators
(the LLM provider, HTTP fetches, the database) become oracle
parameters recording the outcome of each call; Date.now() and
Math.random() become explicit numeric / string parameters.
-/

/-- A thrown JavaScript value: an Error object carrying a message, or a
non-Error value.  The field isError records the instanceof Error test. -/
structure JsError where
  isError : Bool
  message : String
deriving Repr, DecidableEq

/-- The expression used by catch blocks in the source:
error instanceof Error ? error.message : the Unknown error literal. -/
def captureMsg (e : JsError) : String :=
  if e.isError then e.message else "Unknown error"

/-- JS Map.get: first binding for the key, if any. -/
def mapGet [BEq α] (k : α) (m : List (α × β)) : Option β :=
  (m.find? (fun p => p.1 == k)).map Prod.snd

/-- JS Map.set: update the existing binding in place, else append. -/
def mapSet [BEq α] (k : α) (v : β) (m : List (α × β)) : List (α × β) :=
  if m.any (fun p => p.1 == k) then
    m.map (fun p => if p.1 == k then (k, v) else p)
  else m ++ [(k, v)]

/-- JS Map.delete: remove the binding for the key. -/
def mapDelete [BEq α] (k : α) (m : List (α × β)) : List (α × β) :=
  m.filter (fun p => p.1 != k)

/-- Truthiness of an optional JS string: undefined and the empty string
are falsy, every other string is truthy. -/
def jsTruthyStr : Option String → Bool
  | some s => s ≠ ""
  | none => false

/-- The JS expression a or-else b for optional strings (first truthy). -/
def jsOr (a b : Option String) : Option String :=
  if jsTruthyStr a then a else b

/-! ## AuthService (src/unnamed/part_003) -/

/-- A row of the users table (db schema), as far as AuthService reads it. -/
structure User where
  id : String
  email : String
  password : String
  createdAt : Nat
  updatedAt : Nat
deriving Repr, DecidableEq

/-- The UserSession record stored in AuthService.activeSessions. -/
structure UserSession where
  userId : String
  sessionId : String
  token : String
  createdAt : Nat
  lastActivity : Nat
  userAgent : Option String
  ipAddress : Option String
deriving Repr, DecidableEq

/-- AuthService.activeSessions: a JS Map from sessionId to UserSession. -/
abbrev SessionStore := List (String × UserSession)

/-- The payload handed to jwt.sign by AuthService.generateToken. -/
structure TokenPayload where
  userId : String
  email : String
  sessionId : String
  iat : Nat
deriving Repr, DecidableEq

/-- Ambient inputs of one AuthService call: the clock, the random
suffix, the JWT secret environment variable and the signing function. -/
structure AuthEnv where
  now : Nat
  rand : String
  jwtSecret : Option String
  sign : TokenPayload → String

/-- The session identifier template of AuthService.createSession. -/
def mkSessionId (userId : String) (now : Nat) (rand : String) : String :=
  "session_" ++ userId ++ "_" ++ toString now ++ "_" ++ rand

/-- AuthService.generateToken.  Throws when JWT_SECRET is falsy. -/
def generateToken (env : AuthEnv) (user : User) (sessionId : Option String) :
    Except JsError String :=
  let sessionIdentifier :=
    match jsOr sessionId (some (mkSessionId user.id env.now env.rand)) with
    | some s => s
    | none => ""
  if jsTruthyStr env.jwtSecret then
    .ok (env.sign ⟨user.id, user.email, sessionIdentifier, env.now / 1000⟩)
  else
    .error ⟨true, "JWT_SECRET is not set"⟩

/-- The loop test of AuthService.invalidateUserSessions: the entry
belongs to the user and is not the excluded session. -/
def sessionMatchesInvalidation (userId : String) (except : Option String)
    (p : String × UserSession) : Bool :=
  p.2.userId == userId && (match except with
    | some e => p.1 != e
    | none => true)

/-- AuthService.invalidateUserSessions: deletes every session of the
user other than exceptSessionId and returns the removed session ids
(each removal also asks the websocket service to close that socket). -/
def invalidateUserSessions (userId : String) (except : Option String)
    (store : SessionStore) : SessionStore × List String :=
  (store.filter (fun p => !(sessionMatchesInvalidation userId except p)),
   (store.filter (sessionMatchesInvalidation userId except)).map Prod.fst)

/-- AuthService.hasExistingSessions. -/
def hasExistingSessions (userId : String) (store : SessionStore) : List UserSession :=
  (store.filter (fun p => p.2.userId == userId)).map Prod.snd

/-- AuthService.createSession: generates the new session id, invalidates
every other session of the user, mints the token, stores the new
session.  Returns the token and session id, the updated store and the
invalidated session ids. -/
def createSession (env : AuthEnv) (user : User) (userAgent ipAddress : Option String)
    (store : SessionStore) :
    Except JsError (String × String) × SessionStore × List String :=
  let sessionId := mkSessionId user.id env.now env.rand
  let inv := invalidateUserSessions user.id (some sessionId) store
  match generateToken env user (some sessionId) with
  | .error e => (.error e, inv.1, inv.2)
  | .ok token =>
    let session : UserSession :=
      ⟨user.id, sessionId, token, env.now, env.now, userAgent, ipAddress⟩
    (.ok (token, sessionId), mapSet sessionId session inv.1, inv.2)

/-- The user object returned by AuthService.authenticateUser (password
stripped) together with the freshly minted token and session id. -/
structure AuthSuccess where
  userId : String
  email : String
  createdAt : Nat
  updatedAt : Nat
  token : String
  sessionId : String
deriving Repr, DecidableEq

/-- AuthService.authenticateUser.  findResult is the outcome of
findUserByEmail, pwResult the outcome of verifyPassword (bcrypt);
any throw is converted by the catch block into the generic
Authentication failed error.  Returns none on bad credentials. -/
def authenticateUser (env : AuthEnv) (findResult : Except JsError (Option User))
    (pwResult : Except JsError Bool) (userAgent ipAddress : Option String)
    (store : SessionStore) : Except JsError (Option AuthSuccess) × SessionStore :=
  match findResult with
  | .error _ => (.error ⟨true, "Authentication failed"⟩, store)
  | .ok none => (.ok none, store)
  | .ok (some user) =>
    match pwResult with
    | .error _ => (.error ⟨true, "Authentication failed"⟩, store)
    | .ok false => (.ok none, store)
    | .ok true =>
      match createSession env user userAgent ipAddress store with
      | (.error _, store1, _) => (.error ⟨true, "Authentication failed"⟩, store1)
      | (.ok (token, sessionId), store1, _) =>
        (.ok (some ⟨user.id, user.email, user.createdAt, user.updatedAt,
                    token, sessionId⟩), store1)

/-- The claims object produced by jwt.verify on a structurally valid
token.  sessionId, sub and jti are optional fields of the payload. -/
structure TokenClaims where
  userId : String
  email : String
  sessionId : Option String
  sub : Option String
  jti : Option String
  iat : Nat
deriving Repr, DecidableEq

/-- AuthService.isSessionValid: true when the session id is in the
store, in which case it also refreshes that session record with the
current time as lastActivity. -/
def isSessionValid (sessionId : String) (now : Nat) (store : SessionStore) :
    Bool × SessionStore :=
  match mapGet sessionId store with
  | none => (false, store)
  | some s => (true, mapSet sessionId { s with lastActivity := now } store)

/-- AuthService.verifyToken.  decodeResult is the outcome of jwt.verify:
none when the signature or expiry check fails.  A decoded token whose
truthy sessionId is absent from the store throws inside the try block;
the catch turns every failure into the one generic error, so callers
cannot tell signature, expiry and revocation apart. -/
def verifyToken (decodeResult : Option TokenClaims) (now : Nat)
    (store : SessionStore) : Except JsError TokenClaims × SessionStore :=
  match decodeResult with
  | none => (.error ⟨true, "Invalid or expired token"⟩, store)
  | some decoded =>
    if jsTruthyStr decoded.sessionId then
      let r := isSessionValid (decoded.sessionId.getD "") now store
      if r.1 then (.ok decoded, r.2)
      else (.error ⟨true, "Invalid or expired token"⟩, r.2)
    else (.ok decoded, store)

/-- AuthService.logout: deletes the session, true when one existed. -/
def logout (sessionId : String) (store : SessionStore) : Bool × SessionStore :=
  ((mapGet sessionId store).isSome, mapDelete sessionId store)

/-! ## Research pipeline (src/src/utils/researchHelper.ts) -/

/-- A citation of the structured research response (CitationSchema). -/
structure Citation where
  id : Nat
  title : String
  url : String
  relevance_score : Nat
deriving Repr, DecidableEq

/-- A key development of the structured research response. -/
structure KeyDevelopment where
  number : Nat
  title : String
  description : String
  citations : List Nat
deriving Repr, DecidableEq

/-- The parsed structured output of the research LLM call. -/
structure ResearchResponse where
  research_results : String
  key_developments : List KeyDevelopment
  citations : List Citation
deriving Repr, DecidableEq

/-- Status values of a research job in the result store. -/
inductive JobStatus
  | pending
  | completed
  | failed
deriving Repr, DecidableEq

/-- The per-citation record produced by validateSingleCitation. -/
structure CitationValidationResult where
  id : Nat
  url : String
  isValid : Bool
  isAccessible : Bool
  hasContent : Bool
  statusCode : Option Nat
  contentLength : Option Nat
  error : Option String
deriving Repr, DecidableEq

/-- A record of the researchStore map. -/
structure ResearchResult where
  id : String
  status : JobStatus
  research_results : Option String
  key_developments : Option (List KeyDevelopment)
  citations : Option (List Citation)
  citation_validation : Option (List CitationValidationResult)
  error : Option String
  timestamp : String
deriving Repr, DecidableEq

/-- The in-memory researchStore map, keyed by message id. -/
abbrev ResearchStore := List (String × ResearchResult)

/-- Number of matches of the global regex cite dot-star-lazy in the text.
Because the lazy quantifier stands at the end of the pattern it always
matches the empty string, so each match is exactly the literal cite;
the global scan advances past each match. -/
def countCite : List Char → Nat
  | 'c' :: 'i' :: 't' :: 'e' :: rest => countCite rest + 1
  | _ :: rest => countCite rest
  | [] => 0

/-- The foundCitations array of cleanCitationReferences: the list of
matches of the citation pattern, every one the literal cite. -/
def citeMatches (text : String) : List String :=
  List.replicate (countCite text.data) "cite"

/-- The citationMap of cleanCitationReferences: first-seen
deduplication, numbering unique markers from 1 upward. -/
def assignNumbers (found : List String) : List (String × Nat) :=
  found.foldl
    (fun acc c => if acc.any (fun p => p.1 == c) then acc else acc ++ [(c, acc.length + 1)])
    []

/-- cleanCitationReferences: collect the citation markers, deduplicate
them in first-seen order, and replace every occurrence of each marker
by its bracketed number (the regex built from the escaped marker text
replaces all occurrences).  The citations argument is unused, as in
the source. -/
def cleanCitationReferences (text : String) (citations : List Citation) : String :=
  let foundCitations := citeMatches text
  let citationMap := assignNumbers foundCitations
  let _ := citations
  citationMap.foldl
    (fun cleanedText p => cleanedText.replace p.1 ("[" ++ toString p.2 ++ "]"))
    text

/-- Substring test, the JS String.prototype.includes. -/
def strIncludes (s pat : String) : Bool :=
  decide (List.IsInfix pat.data s.data)

/-- One pass of the global regex replace that removes angle-bracket
tags: on an opening bracket the scan consumes every character up to
the next closing angle bracket and drops the whole tag; an opening
bracket never followed by a closing one matches nothing and the rest
of the text is kept verbatim.  The second argument buffers the
characters consumed since the pending opening bracket. -/
def stripTagsSM : List Char → Option (List Char) → List Char
  | [], none => []
  | [], some buf => '<' :: buf.reverse
  | c :: rest, none =>
    if c = '<' then stripTagsSM rest (some [])
    else c :: stripTagsSM rest none
  | c :: rest, some buf =>
    if c = '>' then stripTagsSM rest none
    else stripTagsSM rest (some (c :: buf))

/-- The whitespace-run collapse of the meaningful-content check: every
maximal run of whitespace becomes a single space.  The flag records
whether the previous character was whitespace. -/
def collapseWsSM : List Char → Bool → List Char
  | [], _ => []
  | c :: rest, inWs =>
    if c.isWhitespace then
      if inWs then collapseWsSM rest true
      else ' ' :: collapseWsSM rest true
    else c :: collapseWsSM rest false

/-- The meaningful-text extraction of validateSingleCitation: strip
tags, collapse whitespace, trim. -/
def meaningfulContent (content : String) : String :=
  (String.mk (collapseWsSM (stripTagsSM content.data none) false)).trim

/-- JS parseInt on a header value: the leading digit run, none when the
string does not start with a digit (NaN). -/
def parseIntOpt (s : String) : Option Nat :=
  let ds := s.data.takeWhile Char.isDigit
  if ds.isEmpty then none
  else some (ds.foldl (fun n c => n * 10 + (c.toNat - 48)) 0)

/-- The constant CITATION_REQUEST_TIMEOUT is 10 seconds; a fetch
exceeding it is aborted and surfaces as the abort outcome below. -/
def citationRequestTimeoutMs : Nat := 10000

/-- The constant MIN_MEANINGFUL_CONTENT_LENGTH of researchHelper. -/
def minMeaningfulContentLength : Nat := 4000

/-- Outcome of the single HTTP fetch of one citation URL: a response
with status, content type, body and content-length header; an abort by
the 10 second timeout; or a rejection carrying the error name, message
and whether the thrown value is a TypeError. -/
inductive FetchOutcome
  | ok (status : Nat) (contentType : String) (body : String)
      (contentLengthHeader : Option String)
  | abortTimeout
  | failed (name : String) (message : String) (isTypeError : Bool)
deriving Repr, DecidableEq

/-- Network environment of one validateSingleCitation call: whether the
URL constructor accepts the URL, and the outcome of the fetch. -/
structure CitEnv where
  urlValid : Bool
  fetch : FetchOutcome
deriving Repr, DecidableEq

/-- validateSingleCitation: URL syntax check, fetch with timeout, then
accessibility and meaningful-content checks; every exception is caught
and recorded in the per-citation result, never rethrown. -/
def validateSingleCitation (citation : Citation) (env : CitEnv) :
    CitationValidationResult :=
  let base : CitationValidationResult :=
    ⟨citation.id, citation.url, false, false, false, none, none, none⟩
  if !env.urlValid then
    { base with isValid := false, error := some "Invalid URL" }
  else
    match env.fetch with
    | .abortTimeout =>
      { base with isValid := true, error := some "Request timeout" }
    | .failed name message isTypeError =>
      let msg := if name == "AbortError" then "Request timeout" else message
      let stillValid := !(isTypeError && strIncludes message "Invalid URL")
      { base with isValid := stillValid, error := some msg }
    | .ok status contentType body contentLengthHeader =>
      let accessible := decide (200 ≤ status) && decide (status < 300)
      if accessible then
        if strIncludes contentType "text/html" || strIncludes contentType "text/plain"
            || strIncludes contentType "application/xml" then
          { base with
            isValid := true, isAccessible := true,
            statusCode := some status, contentLength := some body.length,
            hasContent := decide ((meaningfulContent body).length > minMeaningfulContentLength) }
        else
          { base with
            isValid := true, isAccessible := true,
            statusCode := some status, hasContent := true,
            contentLength := parseIntOpt ((jsOr contentLengthHeader (some "0")).getD "0") }
      else
        { base with isValid := true, isAccessible := false, statusCode := some status }

/-- The mapping of validateCitationUrls, with the position of each
citation selecting its own independent network outcome. -/
def validateCitationUrlsFrom (env : Nat → CitEnv) :
    Nat → List Citation → List CitationValidationResult
  | _, [] => []
  | i, c :: cs => validateSingleCitation c (env i) :: validateCitationUrlsFrom env (i + 1) cs

/-- validateCitationUrls: one validation per citation, all joined; a
failure inside one validation is captured in that result only. -/
def validateCitationUrls (citations : List Citation) (env : Nat → CitEnv) :
    List CitationValidationResult :=
  validateCitationUrlsFrom env 0 citations

/-! ## ChatService data model (src/unnamed/part_001) -/

/-- Role of one chat message. -/
inductive MessageRole
  | user
  | assistant
  | system
deriving Repr, DecidableEq

/-- One message of a conversation. -/
structure ChatMessage where
  role : MessageRole
  content : String
deriving Repr, DecidableEq

/-- The request body of ChatService.processChatRequest. -/
structure ChatRequest where
  messages : List ChatMessage
  userLocation : Option String
deriving Repr, DecidableEq

/-- The inner response object of a ChatResponse. -/
structure ResponseBody where
  response : String
  confidence_score : Nat
  citations : List Citation
deriving Repr, DecidableEq

/-- The fixed fallback reply of ChatService. -/
def fallbackResponse : ResponseBody :=
  ⟨"Sorry, I cannot answer that question. I can only answer questions related to utilities and billing.",
   0, []⟩

/-- The placeholder reply returned while research runs in background. -/
def placeholderBody : ResponseBody :=
  ⟨"To provide you with the most accurate and up-to-date information on your query, I\x27m now accessing the latest sources. This will allow me to give you a more comprehensive and reliable answer",
   0, []⟩

/-- The ChatResponse returned by processChatRequest. -/
structure ChatResponse where
  success : Bool
  response : ResponseBody
  message_id : String
  research_pending : Bool
  timestamp : String
deriving Repr, DecidableEq

/-- The message id template used by ChatService and researchHelper. -/
def mkMsgId (now : Nat) (rand : String) : String :=
  "msg_" ++ toString now ++ "_" ++ rand

/-! ## performResearchAsync (src/src/utils/researchHelper.ts) -/

/-- The conversation window of performResearchAsync: the last five
messages, each rendered with its role label. -/
def researchQuery (allMessages : List ChatMessage) : String :=
  let last5Messages := allMessages.drop (allMessages.length - 5)
  String.intercalate "\n"
    (last5Messages.map (fun message =>
      (if message.role == .user then "User: " else "Assistant: ") ++ message.content))

/-- Outcomes of the effectful collaborators of one performResearchAsync
run: the structured LLM call as a function of the query (an exception,
or a possibly-null parsed response), the per-citation network outcomes,
and the two clock readings used for the stored timestamps.  The bot
message id components model Date.now and Math.random at the persistence
step; MessageService.createBotMessage itself never throws (it catches
persistence errors and returns null). -/
structure ResearchEnv where
  llm : String → Except JsError (Option ResearchResponse)
  cenv : Nat → CitEnv
  ts1 : String
  ts2 : String
  botNow : Nat
  botRand : String

/-- The numbered rendering of key developments appended to the cleaned
executive summary (the final text persisted as the bot message). -/
def assembleResults (summary : String) (devs : List KeyDevelopment) : String :=
  if devs.length > 0 then
    devs.foldl
      (fun acc dev =>
        let citationText :=
          if dev.citations.length > 0 then
            " [" ++ String.intercalate ", " (dev.citations.map toString) ++ "]"
          else ""
        acc ++ toString dev.number ++ ". " ++ dev.title ++ citationText ++ "\n"
          ++ dev.description ++ "\n\n")
      (summary ++ "\n\n")
  else summary

/-- The citation rewrite after URL validation: a citation whose URL is
not in the set of valid URLs keeps its identity but loses its URL and
has its title annotated. -/
def filterCitations (citations : List Citation)
    (validationResults : List CitationValidationResult) : List Citation :=
  let validUrls :=
    (validationResults.filter (fun r => r.isValid && r.isAccessible && r.hasContent)).map
      (fun r => r.url)
  citations.map (fun citation =>
    if validUrls.contains citation.url then citation
    else { citation with
           url := "",
           title := citation.title ++ " (URL was invalid or inaccessible)" })

/-- The record written to the researchStore when a job starts. -/
def pendingJob (messageId : String) (ts : String) : ResearchResult :=
  ⟨messageId, .pending, none, none, none, none, none, ts⟩

/-- The record written to the researchStore by the catch block. -/
def failedJob (messageId : String) (err : String) (ts : String) : ResearchResult :=
  ⟨messageId, .failed, none, none, none, none, some err, ts⟩

/-- performResearchAsync: mark the job pending, run the pipeline, and
write the completed record, or on any exception the failed record with
the captured message.  Returns the final store and the list of bot
message texts persisted to history. -/
def performResearchAsync (messageId : String) (allMessages : List ChatMessage)
    (userId : String) (userLocation : Option String) (env : ResearchEnv)
    (store : ResearchStore) : ResearchStore × List String :=
  let _ := userId
  let _ := userLocation
  let store1 := mapSet messageId (pendingJob messageId env.ts1) store
  let query := researchQuery allMessages
  match env.llm query with
  | .error e =>
    (mapSet messageId (failedJob messageId (captureMsg e) env.ts2) store1, [])
  | .ok none =>
    (mapSet messageId
      (failedJob messageId "No research response received from OpenAI" env.ts2) store1, [])
  | .ok (some researchResponseJson) =>
    let cleanedResearchResults :=
      cleanCitationReferences researchResponseJson.research_results
        researchResponseJson.citations
    let cleanedKeyDevelopments :=
      researchResponseJson.key_developments.map (fun keyDevelopment =>
        { keyDevelopment with
          title := cleanCitationReferences keyDevelopment.title
            researchResponseJson.citations,
          description := cleanCitationReferences keyDevelopment.description
            researchResponseJson.citations })
    let processedResearchResults :=
      assembleResults cleanedResearchResults cleanedKeyDevelopments
    let finalCitations :=
      if researchResponseJson.citations.length > 0 then
        filterCitations researchResponseJson.citations
          (validateCitationUrls researchResponseJson.citations env.cenv)
      else researchResponseJson.citations
    (mapSet messageId
      ⟨messageId, .completed, some cleanedResearchResults,
       some cleanedKeyDevelopments, some finalCitations, none, none, env.ts2⟩ store1,
     [processedResearchResults])

/-- getResearchResult: lookup in the researchStore. -/
def getResearchResult (messageId : String) (store : ResearchStore) :
    Option ResearchResult :=
  mapGet messageId store

/-- The exception, if any, raised inside the try block of one
performResearchAsync run: a rejection of the LLM call, or the Error
thrown when the parsed output is null. -/
def raisedResearchError (env : ResearchEnv) (allMessages : List ChatMessage) :
    Option JsError :=
  match env.llm (researchQuery allMessages) with
  | .error e => some e
  | .ok none => some ⟨true, "No research response received from OpenAI"⟩
  | .ok (some _) => none

/-! ## ChatService.processChatRequest (src/unnamed/part_001) -/

/-- A failure of the scope-decision LLM call: an OpenAI.APIError with
its HTTP status, or any other thrown value (such as the SyntaxError of
JSON.parse on malformed output). -/
inductive ChatFail
  | apiError (status : Nat)
  | thrown (e : JsError)
deriving Repr, DecidableEq

/-- The errorMessage computed (and only logged) by the catch block of
processChatRequest. -/
def chatErrorMessage : ChatFail → String
  | .apiError 429 => "Rate limit exceeded. Please try again later."
  | .apiError 401 => "API configuration error. Please contact support."
  | _ => "An error occurred while processing your request."

/-- The TypeError raised when the content of the last element of an
empty messages array is read. -/
def jsTypeError : JsError :=
  ⟨true, "Cannot read properties of undefined (reading \x27content\x27)"⟩

/-- Outcomes of the collaborators of one processChatRequest call: the
clock and random suffix for the message id, the ISO timestamp, the bot
message id components, and the scope-decision call as a function of the
last user message (its Bool is the JS truthiness of the research field
of the parsed output; MessageService persistence calls never throw). -/
structure ChatEnv where
  now : Nat
  rand : String
  tsIso : String
  botNow : Nat
  botRand : String
  scope : String → Except ChatFail Bool

/-- The arguments of the background performResearchAsync call scheduled
by processChatRequest. -/
structure ResearchArgs where
  messageId : String
  allMessages : List ChatMessage
  userId : String
  userLocation : Option String
deriving Repr, DecidableEq

/-- The observable outcome of one processChatRequest call: the returned
ChatResponse, the background research task scheduled (if any), and the
error message written to the log by the catch block (if any). -/
structure ChatTurn where
  response : ChatResponse
  scheduled : Option ResearchArgs
  errorLog : Option String
deriving Repr, DecidableEq

/-- ChatService.processChatRequest.  The content of the last message is
read before the try block, so an empty messages list raises a TypeError
to the caller; inside the try block every failure is caught and mapped
to the fallback response with success false. -/
def processChatRequest (env : ChatEnv) (request : ChatRequest) (userId : String)
    (sessionId : Option String) : Except JsError ChatTurn :=
  let _ := sessionId
  match request.messages.getLast? with
  | none => .error jsTypeError
  | some lastMsg =>
    let userLastMessage := lastMsg.content
    let messageId := mkMsgId env.now env.rand
    match env.scope userLastMessage with
    | .error f =>
      .ok ⟨⟨false, fallbackResponse, messageId, false, env.tsIso⟩,
           none, some (chatErrorMessage f)⟩
    | .ok needsResearch =>
      if needsResearch then
        let allMessages :=
          request.messages ++ [⟨.assistant, placeholderBody.response⟩]
        .ok ⟨⟨true, placeholderBody, messageId, true, env.tsIso⟩,
             some ⟨messageId, allMessages, userId, request.userLocation⟩, none⟩
      else
        .ok ⟨⟨true, fallbackResponse, messageId, false, env.tsIso⟩, none, none⟩

/-- The research store once the background task scheduled by a chat
turn (if any) has run to completion. -/
def storeAfterTurn (turn : ChatTurn) (renv : ResearchEnv) (store : ResearchStore) :
    ResearchStore :=
  match turn.scheduled with
  | none => store
  | some a => (performResearchAsync a.messageId a.allMessages a.userId a.userLocation
      renv store).1

/-! ## WebSocketService (src/unnamed/part_002) -/

/-- The ws readyState constant OPEN. -/
def WS_OPEN : Nat := 1

/-- The ws readyState constant CLOSING, entered by close(). -/
def WS_CLOSING : Nat := 2

/-- One AuthenticatedWebSocket: the tags the service writes onto the
socket object, plus the readyState of the underlying socket. -/
structure Conn where
  userId : Option String
  sessionId : Option String
  roomId : Option String
  isAuthenticated : Bool
  conversationHistory : List ChatMessage
  lastActivity : Nat
  readyState : Nat
deriving Repr, DecidableEq

/-- A UserRoom of the registry; sessions holds the identities of the
member sockets in insertion order (a JS Set of object references). -/
structure UserRoom where
  roomId : String
  userId : String
  sessions : List Nat
  createdAt : Nat
  lastActivity : Nat
deriving Repr, DecidableEq

/-- The state of the WebSocketService: the socket objects (keyed by
identity), the clients map (sessionId to socket), the per-user rooms,
and the AuthService session store the token check reads and writes. -/
structure WSState where
  conns : List (Nat × Conn)
  clients : List (String × Nat)
  userRooms : List (String × UserRoom)
  sessionStore : SessionStore
deriving Repr, DecidableEq

/-- An inbound or outbound websocket frame (WebSocketMessage). -/
structure WSMessage where
  type : String
  content : Option String
  token : Option String
  timestamp : String
  message_id : Option String
  error : Option String
  research_pending : Option Bool
deriving Repr, DecidableEq

/-- An observable action of the service on sockets: sending a frame to
a socket, or closing a socket. -/
inductive WSEvent
  | send (connId : Nat) (frame : WSMessage)
  | closeSocket (connId : Nat)
deriving Repr, DecidableEq

/-- Modelled from the spec: the MessageType enum lives in
src/src/utils/types.ts, which is not among the provided sources; the
wire-protocol section of the specification names the bot message frame
type bot_message and the typing frame type ai_typing. -/
def botMessageType : String := "bot_message"

/-- Modelled from the spec: the ai_typing frame type (see
botMessageType). -/
def aiTypingType : String := "ai_typing"

/-- The frame built by WebSocketService.sendError. -/
def mkErrorFrame (err : String) (ts : String) : WSMessage :=
  ⟨botMessageType, none, none, ts, none, some err, none⟩

/-- WebSocketService.sendMessage: send only when the socket is open. -/
def sendMessage (st : WSState) (cid : Nat) (frame : WSMessage) : List WSEvent :=
  match mapGet cid st.conns with
  | some c => if c.readyState == WS_OPEN then [.send cid frame] else []
  | none => []

/-- WebSocketService.sendError. -/
def sendError (st : WSState) (cid : Nat) (err : String) (ts : String) : List WSEvent :=
  sendMessage st cid (mkErrorFrame err ts)

/-- WebSocketService.sendToUserRoom: deliver the frame to every member
socket of the room of that user that is authenticated and open, and
refresh the room activity; a missing room is a silent no-op. -/
def sendToUserRoom (st : WSState) (userId : String) (frame : WSMessage) (now : Nat) :
    WSState × List WSEvent :=
  match mapGet userId st.userRooms with
  | none => (st, [])
  | some room =>
    let evs := room.sessions.filterMap (fun cid =>
      match mapGet cid st.conns with
      | some c =>
        if c.isAuthenticated && c.readyState == WS_OPEN then
          some (WSEvent.send cid frame)
        else none
      | none => none)
    ({ st with
       userRooms := mapSet userId { room with lastActivity := now } st.userRooms }, evs)

/-- WebSocketService.joinUserRoom: create the room of the user lazily
and add the socket to its member set (a no-op when the socket lacks a
truthy userId or roomId). -/
def joinUserRoom (st : WSState) (cid : Nat) (now : Nat) : WSState :=
  match mapGet cid st.conns with
  | none => st
  | some c =>
    if jsTruthyStr c.userId && jsTruthyStr c.roomId then
      let uid := c.userId.getD ""
      let room :=
        match mapGet uid st.userRooms with
        | some r => r
        | none => ⟨c.roomId.getD "", uid, [], now, now⟩
      let room2 :=
        { room with
          sessions := if room.sessions.contains cid then room.sessions
            else room.sessions ++ [cid],
          lastActivity := now }
      { st with userRooms := mapSet uid room2 st.userRooms }
    else st

/-- WebSocketService.updateRoomActivity. -/
def updateRoomActivity (st : WSState) (cid : Nat) (now : Nat) : WSState :=
  match mapGet cid st.conns with
  | none => st
  | some c =>
    let st1 :=
      if jsTruthyStr c.userId then
        match mapGet (c.userId.getD "") st.userRooms with
        | some room =>
          { st with
            userRooms := mapSet (c.userId.getD "")
              { room with lastActivity := now } st.userRooms }
        | none => st
      else st
    { st1 with conns := mapSet cid { c with lastActivity := now } st1.conns }

/-- WebSocketService.sendErrorToRoom: deliver the error frame to the
room of the user when the socket has a truthy userId, else directly. -/
def sendErrorToRoom (st : WSState) (cid : Nat) (err : String) (ts : String)
    (now : Nat) : WSState × List WSEvent :=
  match mapGet cid st.conns with
  | none => (st, [])
  | some c =>
    if jsTruthyStr c.userId then
      sendToUserRoom st (c.userId.getD "") (mkErrorFrame err ts) now
    else (st, sendError st cid err ts)

/-- The sessionId fallback chain of authenticateConnection: the decoded
sessionId, else jti, else the first sixteen characters of the last
dot-separated token segment, else the anonymous literal. -/
def wsSessionIdOf (decoded : TokenClaims) (token : String) : Option String :=
  jsOr decoded.sessionId (jsOr decoded.jti
    (jsOr (some (((token.splitOn ".").getLastD "").take 16)) (some "anonymous")))

/-- WebSocketService.authenticateConnection: verify the token against
the AuthService (the session check included), then tag the socket as
authenticated, register it in the clients map, and join the room of
its user; a verification failure only returns false. -/
def authenticateConnection (decode : String → Option TokenClaims) (now : Nat)
    (st : WSState) (cid : Nat) (token : String) : Bool × WSState :=
  match mapGet cid st.conns with
  | none => (false, st)
  | some c =>
    match verifyToken (decode token) now st.sessionStore with
    | (.error _, store1) => (false, { st with sessionStore := store1 })
    | (.ok decoded, store1) =>
      let wsUserId :=
        jsOr (if decoded.userId ≠ "" then some decoded.userId else none) decoded.sub
      let wsSessionId := wsSessionIdOf decoded token
      let c2 :=
        { c with
          userId := wsUserId,
          sessionId := wsSessionId,
          roomId := some ("room_" ++ wsUserId.getD "undefined"),
          isAuthenticated := true,
          conversationHistory := [],
          lastActivity := now }
      let st1 :=
        { st with sessionStore := store1, conns := mapSet cid c2 st.conns }
      let st2 :=
        if jsTruthyStr wsSessionId then
          { st1 with clients := mapSet (wsSessionId.getD "") cid st1.clients }
        else st1
      (true, joinUserRoom st2 cid now)

/-- WebSocketService.handleMessage.  The chat-message handler (which
calls processChatRequest and pushes the reply) is abstracted as the
handleChat argument; its exceptions are caught by the outer catch
block.  An auth frame with a truthy token drives authentication; every
other frame on an unauthenticated socket only produces an error reply. -/
def handleMessage (decode : String → Option TokenClaims) (now : Nat) (nowIso : String)
    (handleChat : WSState → Nat → WSMessage → Except JsError (WSState × List WSEvent))
    (st : WSState) (cid : Nat) (msg : WSMessage) : WSState × List WSEvent :=
  match mapGet cid st.conns with
  | none => (st, [])
  | some c =>
    if msg.type == "auth" && jsTruthyStr msg.token then
      let r := authenticateConnection decode now st cid (msg.token.getD "")
      if r.1 then
        match mapGet cid r.2.conns with
        | some c2 =>
          if jsTruthyStr c2.userId then
            sendToUserRoom r.2 (c2.userId.getD "")
              ⟨botMessageType, some "WebSocket authenticated successfully",
               none, nowIso, none, none, none⟩ now
          else (r.2, [])
        | none => (r.2, [])
      else
        let evs := sendError r.2 cid "Authentication failed" nowIso
        (match mapGet cid r.2.conns with
         | some c3 =>
           { r.2 with conns := mapSet cid { c3 with readyState := WS_CLOSING } r.2.conns }
         | none => r.2,
         evs ++ [.closeSocket cid])
    else if !c.isAuthenticated then
      (st, sendError st cid "Please authenticate first" nowIso)
    else
      let st1 := updateRoomActivity st cid now
      if msg.type == "user_message" && jsTruthyStr msg.content then
        match handleChat st1 cid msg with
        | .ok r => r
        | .error _ => sendErrorToRoom st1 cid "Error processing message" nowIso now
      else
        sendErrorToRoom st1 cid "Invalid message type or missing content" nowIso now

/-! ## Research polling loop (src/unnamed/part_002, startResearchPolling) -/

/-- The maxAttempts constant of startResearchPolling. -/
def maxAttempts : Nat := 300

/-- The poll interval of startResearchPolling, milliseconds. -/
def pollIntervalMs : Nat := 2000

/-- How one polling chain ends: the job completed, the job failed, or
the warning branch (attempts exhausted or socket no longer open). -/
inductive PollStop
  | finishedCompleted
  | finishedFailed
  | warned
deriving Repr, DecidableEq

/-- The observable run of one polling chain: how many times the poll
body executed, the delays of the setTimeout calls it scheduled after
the first, and how it stopped. -/
structure PollRun where
  polls : Nat
  delays : List Nat
  stop : PollStop
deriving Repr, DecidableEq

/-- The poll closure of startResearchPolling, entered with the current
attempts counter.  statusAt gives the status the result store holds
when the n-th poll body runs (none when the job is absent), openAt
whether the readyState of the socket equals OPEN at that moment.  The
body increments the counter, finishes on a completed or failed job,
and otherwise reschedules itself after two seconds while attempts
remain and the socket is open; else it stops with a warning. -/
def pollFrom (statusAt : Nat → Option JobStatus) (openAt : Nat → Bool)
    (attempts : Nat) : PollRun :=
  match statusAt (attempts + 1) with
  | some .completed => ⟨1, [], .finishedCompleted⟩
  | some .failed => ⟨1, [], .finishedFailed⟩
  | _ =>
    if h : attempts + 1 < maxAttempts ∧ openAt (attempts + 1) = true then
      let r := pollFrom statusAt openAt (attempts + 1)
      ⟨r.polls + 1, pollIntervalMs :: r.delays, r.stop⟩
    else ⟨1, [], .warned⟩
termination_by maxAttempts - attempts
decreasing_by
  have h1 := h.1
  simp only [maxAttempts] at h1 ⊢
  omega

/-- startResearchPolling: the initial two-second delay and the polling
chain started with a zero attempts counter. -/
def startResearchPolling (statusAt : Nat → Option JobStatus) (openAt : Nat → Bool) :
    Nat × PollRun :=
  (pollIntervalMs, pollFrom statusAt openAt 0)

/-! ## Helper lemmas -/

theorem mapGet_mapSet_aux [BEq α] [LawfulBEq α] (k : α) (v : β) :
    ∀ m : List (α × β), m.any (fun p => p.1 == k) = true →
      (m.map (fun p => if p.1 == k then (k, v) else p)).find? (fun p => p.1 == k)
        = some (k, v)
  | [], h => by simp at h
  | q :: m, h => by
    by_cases hq : q.1 == k
    · simp [hq, List.find?]
    · simp only [List.any_cons, Bool.or_eq_true] at h
      rcases h with h | h
      · exact absurd h hq
      · simp only [List.map_cons, hq, if_neg, List.find?, if_false]
        have := mapGet_mapSet_aux k v m h
        simp [List.find?_cons, hq, this]

theorem mapGet_mapSet_self [BEq α] [LawfulBEq α] (k : α) (v : β) (m : List (α × β)) :
    mapGet k (mapSet k v m) = some v := by
  unfold mapGet mapSet
  by_cases h : m.any (fun p => p.1 == k)
  · rw [if_pos h, mapGet_mapSet_aux k v m h]
    rfl
  · rw [if_neg h]
    have hfind : m.find? (fun p => p.1 == k) = none := by
      rw [List.find?_eq_none]
      intro p hp
      simp only [List.any_eq_true] at h
      exact fun hc => h ⟨p, hp, hc⟩
    rw [List.find?_append, hfind]
    simp

theorem length_le_one_of_nodup_const {l : List α} (a : α) (hnd : l.Nodup)
    (h : ∀ x ∈ l, x = a) : l.length ≤ 1 := by
  match l, hnd, h with
  | [], _, _ => simp
  | [x], _, _ => simp
  | x :: y :: t, hnd, h =>
    exfalso
    have hx : x = a := h x (by simp)
    have hy : y = a := h y (by simp)
    have := List.nodup_cons.mp hnd
    exact this.1 (by simp [hx, hy])

/-! ## C5: citation marker cleanup -/

theorem assignNumbers_replicate (k : Nat) :
    assignNumbers (List.replicate (k + 1) "cite") = [("cite", 1)] := by
  have haux : ∀ n, List.foldl
      (fun acc c => if acc.any (fun p => p.1 == c) then acc else acc ++ [(c, acc.length + 1)])
      [("cite", 1)] (List.replicate n "cite") = [("cite", 1)] := by
    intro n
    induction n with
    | zero => rfl
    | succ n ih => simpa [List.replicate_succ] using ih
  simp only [assignNumbers, List.replicate_succ, List.foldl_cons]
  simpa using haux k

theorem cleanCitationReferences_of_no_matches (t : String) (cits : List Citation)
    (h : citeMatches t = []) : cleanCitationReferences t cits = t := by
  simp only [cleanCitationReferences, h, assignNumbers, List.foldl_nil]

/-- C5.  Within one document the cleanup assigns one number per unique
marker (two entries of the citation map with the same marker text carry
the same number), numbers unique markers 1, 2, ... in first-seen order,
replaces every occurrence of each marker by its bracketed number, and
is the identity (hence idempotent) on text without markers. -/
theorem cleanCitationReferences_spec (t : String) (cits : List Citation) :
    (citeMatches t = [] →
      cleanCitationReferences (cleanCitationReferences t cits) cits
        = cleanCitationReferences t cits) ∧
    (∀ p ∈ assignNumbers (citeMatches t), ∀ q ∈ assignNumbers (citeMatches t),
      p.1 = q.1 → p.2 = q.2) ∧
    ((assignNumbers (citeMatches t)).map Prod.snd
      = List.range' 1 (assignNumbers (citeMatches t)).length) ∧
    (citeMatches t ≠ [] → cleanCitationReferences t cits = t.replace "cite" "[1]") := by
  rcases hk : countCite t.data with _ | k
  · have hm : citeMatches t = [] := by simp [citeMatches, hk]
    refine ⟨fun _ => ?_, ?_, ?_, fun hne => absurd hm hne⟩
    · rw [cleanCitationReferences_of_no_matches t cits hm,
        cleanCitationReferences_of_no_matches t cits hm]
    · simp [hm, assignNumbers]
    · simp [hm, assignNumbers]
  · have hm : citeMatches t = List.replicate (k + 1) "cite" := by
      simp [citeMatches, hk]
    have hne : citeMatches t ≠ [] := by
      rw [hm, List.replicate_succ]
      exact List.cons_ne_nil _ _
    have hassign : assignNumbers (citeMatches t) = [("cite", 1)] := by
      rw [hm, assignNumbers_replicate]
    refine ⟨fun habs => absurd habs hne, ?_, ?_, fun _ => ?_⟩
    · rw [hassign]
      intro p hp q hq _
      simp only [List.mem_singleton] at hp hq
      rw [hp, hq]
    · rw [hassign]
      rfl
    · simp only [cleanCitationReferences, hassign, List.foldl_cons, List.foldl_nil]
      rfl

/-- C5 witness: a text without markers is a fixed point, and in a text
with two occurrences of the ad hoc marker both get the number 1. -/
theorem cleanCitationReferences_spec_witness :
    (citeMatches "clean text" = [] ∧
      cleanCitationReferences (cleanCitationReferences "clean text" []) []
        = cleanCitationReferences "clean text" []) ∧
    (citeMatches "a citeturn6search0 b citeturn0search0" ≠ [] ∧
      cleanCitationReferences "a citeturn6search0 b citeturn0search0" []
        = String.replace "a citeturn6search0 b citeturn0search0" "cite" "[1]") :=
  ⟨⟨by decide, (cleanCitationReferences_spec "clean text" []).1 (by decide)⟩,
   ⟨by decide,
    (cleanCitationReferences_spec "a citeturn6search0 b citeturn0search0" []).2.2.2
      (by decide)⟩⟩

/-! ## C6: citation URL validation -/

theorem validateCitationUrlsFrom_length (env : Nat → CitEnv) :
    ∀ (cits : List Citation) (i : Nat),
      (validateCitationUrlsFrom env i cits).length = cits.length
  | [], _ => rfl
  | _ :: cs, i => by
    simp [validateCitationUrlsFrom, validateCitationUrlsFrom_length env cs (i + 1)]

theorem validateCitationUrlsFrom_get (env : Nat → CitEnv) :
    ∀ (cits : List Citation) (i j : Nat) (h1 : j < (validateCitationUrlsFrom env i cits).length)
      (h2 : j < cits.length),
      (validateCitationUrlsFrom env i cits).get ⟨j, h1⟩
        = validateSingleCitation (cits.get ⟨j, h2⟩) (env (i + j))
  | c :: cs, i, 0, _, _ => rfl
  | c :: cs, i, j + 1, h1, h2 => by
    have := validateCitationUrlsFrom_get env cs (i + 1) j
      (by simpa [validateCitationUrlsFrom] using Nat.lt_of_succ_lt_succ h1)
      (Nat.lt_of_succ_lt_succ h2)
    simpa [validateCitationUrlsFrom, Nat.add_assoc, Nat.add_comm 1 j] using this

/-- C6.  validateCitationUrls is a total function producing exactly one
result per citation; the result at each position depends only on that
citation and the network outcome of its own fetch; and a syntactically
valid URL whose fetch is aborted by the timeout yields a result with
isValid true, isAccessible false and the timeout error message, all
other exceptions likewise being captured inside the per-citation
record. -/
theorem validateCitationUrls_spec :
    (∀ (cits : List Citation) (env : Nat → CitEnv),
      (validateCitationUrls cits env).length = cits.length) ∧
    (∀ (cits : List Citation) (env : Nat → CitEnv) (j : Nat)
      (h1 : j < (validateCitationUrls cits env).length) (h2 : j < cits.length),
      (validateCitationUrls cits env).get ⟨j, h1⟩
        = validateSingleCitation (cits.get ⟨j, h2⟩) (env j)) ∧
    (∀ (c : Citation) (e : CitEnv), e.urlValid = true → e.fetch = .abortTimeout →
      validateSingleCitation c e
        = ⟨c.id, c.url, true, false, false, none, none, some "Request timeout"⟩) := by
  refine ⟨fun cits env => validateCitationUrlsFrom_length env cits 0,
    fun cits env j h1 h2 => ?_, fun c e hv hf => ?_⟩
  · simpa using validateCitationUrlsFrom_get env cits 0 j h1 h2
  · simp [validateSingleCitation, hv, hf]

/-- C6 witness: a two-citation batch where the first fetch times out
and the second URL is malformed; each citation gets its own result. -/
theorem validateCitationUrls_spec_witness :
    ((validateCitationUrls [⟨1, "a", "http://x", 5⟩, ⟨2, "b", "nonsense", 5⟩]
        (fun i => if i == 0 then ⟨true, .abortTimeout⟩ else ⟨false, .abortTimeout⟩)).length
      = 2) ∧
    (validateSingleCitation ⟨1, "a", "http://x", 5⟩ ⟨true, .abortTimeout⟩
      = ⟨1, "http://x", true, false, false, none, none, some "Request timeout"⟩) :=
  ⟨validateCitationUrls_spec.1 [⟨1, "a", "http://x", 5⟩, ⟨2, "b", "nonsense", 5⟩]
      (fun i => if i == 0 then ⟨true, .abortTimeout⟩ else ⟨false, .abortTimeout⟩),
   validateCitationUrls_spec.2.2 ⟨1, "a", "http://x", 5⟩ ⟨true, .abortTimeout⟩ rfl rfl⟩

/-! ## C2: token verification against the session store -/

/-- C2.  For a token whose signature and expiry pass (the decode
succeeds) and whose embedded session id is a real one (non-empty, as
every id minted by createSession is): when that session id is absent
from the active-session store, verifyToken throws the generic
authentication error instead of returning the claims; when it is
present, verification returns the decoded claims and rewrites that
session record with a refreshed lastActivity. -/
theorem verifyToken_session_revocation (decoded : TokenClaims) (sid : String)
    (now : Nat) (store : SessionStore)
    (hsid : decoded.sessionId = some sid) (hne : sid ≠ "") :
    (mapGet sid store = none →
      verifyToken (some decoded) now store
        = (.error ⟨true, "Invalid or expired token"⟩, store)) ∧
    (∀ s, mapGet sid store = some s →
      verifyToken (some decoded) now store
        = (.ok decoded, mapSet sid { s with lastActivity := now } store)) := by
  constructor
  · intro h0
    simp [verifyToken, hsid, jsTruthyStr, hne, isSessionValid, h0]
  · intro s hs
    simp [verifyToken, hsid, jsTruthyStr, hne, isSessionValid, hs]

/-- C2 witness: a decoded token for a session that is no longer stored
is rejected, and one whose session is stored is accepted with the
lastActivity refresh. -/
theorem verifyToken_session_revocation_witness :
    (mapGet "s9" ([] : SessionStore) = none →
      verifyToken (some ⟨"u1", "e", some "s9", none, none, 0⟩) 5 []
        = (.error ⟨true, "Invalid or expired token"⟩, [])) ∧
    (∀ s, mapGet "s9" ([] : SessionStore) = some s →
      verifyToken (some ⟨"u1", "e", some "s9", none, none, 0⟩) 5 []
        = (.ok ⟨"u1", "e", some "s9", none, none, 0⟩,
           mapSet "s9" { s with lastActivity := 5 } [])) :=
  verifyToken_session_revocation ⟨"u1", "e", some "s9", none, none, 0⟩ "s9" 5 []
    rfl (by decide)

/-! ## C1: single session per user -/

theorem invalidateUserSessions_keeps (uid sid : String) (store : SessionStore) :
    ∀ p ∈ (invalidateUserSessions uid (some sid) store).1,
      p.2.userId = uid → p.1 = sid := by
  intro p hp hu
  simp only [invalidateUserSessions, List.mem_filter] at hp
  rcases hp with ⟨_, hkeep⟩
  by_contra hne
  simp [sessionMatchesInvalidation, hu, hne] at hkeep

theorem mapSet_key_prop (k : String) (v : UserSession) (l : SessionStore)
    (P : UserSession → Prop)
    (hl : ∀ p ∈ l, P p.2 → p.1 = k) :
    ∀ p ∈ mapSet k v l, P p.2 → p.1 = k := by
  intro p hp hP
  unfold mapSet at hp
  by_cases hany : l.any (fun p => p.1 == k)
  · rw [if_pos hany] at hp
    rcases List.mem_map.mp hp with ⟨q, hq, hqe⟩
    by_cases hqk : q.1 == k
    · rw [if_pos hqk] at hqe
      rw [← hqe]
    · rw [if_neg hqk] at hqe
      exact hqe ▸ hl q hq (hqe ▸ hP)
  · rw [if_neg hany] at hp
    rcases List.mem_append.mp hp with hin | hin
    · exact hl p hin hP
    · simp only [List.mem_singleton] at hin
      rw [hin]

theorem mapSet_keys_nodup (k : String) (v : UserSession) (l : SessionStore)
    (h : (l.map Prod.fst).Nodup) : ((mapSet k v l).map Prod.fst).Nodup := by
  unfold mapSet
  by_cases hany : l.any (fun p => p.1 == k)
  · rw [if_pos hany]
    have : (l.map (fun p => if p.1 == k then (k, v) else p)).map Prod.fst
        = l.map Prod.fst := by
      rw [List.map_map]
      refine List.map_congr_left ?_
      intro p _
      by_cases hp : p.1 == k
      · simp only [Function.comp_apply, if_pos hp]
        exact (eq_of_beq hp).symm
      · simp only [Function.comp_apply, if_neg hp]
    rw [this]
    exact h
  · rw [if_neg hany]
    have hk : k ∉ l.map Prod.fst := by
      intro hmem
      rcases List.mem_map.mp hmem with ⟨p, hp, hpk⟩
      have : l.any (fun p => p.1 == k) = true :=
        List.any_eq_true.mpr ⟨p, hp, by simp [hpk]⟩
      exact hany this
    simp [List.nodup_append, h, hk]

theorem filter_userId_length_le_one (l : SessionStore) (sid uid : String)
    (hnd : (l.map Prod.fst).Nodup)
    (hkey : ∀ p ∈ l, p.2.userId = uid → p.1 = sid) :
    (l.filter (fun p => p.2.userId == uid)).length ≤ 1 := by
  have hsub : ((l.filter (fun p => p.2.userId == uid)).map Prod.fst).Sublist
      (l.map Prod.fst) := (List.filter_sublist l).map Prod.fst
  have hnd2 : ((l.filter (fun p => p.2.userId == uid)).map Prod.fst).Nodup :=
    hnd.sublist hsub
  have hall : ∀ x ∈ (l.filter (fun p => p.2.userId == uid)).map Prod.fst, x = sid := by
    intro x hx
    rcases List.mem_map.mp hx with ⟨p, hp, hpx⟩
    rcases List.mem_filter.mp hp with ⟨hpl, hpu⟩
    exact hpx ▸ hkey p hpl (by simpa using hpu)
  have := length_le_one_of_nodup_const sid hnd2 hall
  simpa using this

theorem createSession_success (env : AuthEnv) (user : User)
    (ua ip : Option String) (store : SessionStore) (tok sid : String)
    (store1 : SessionStore) (rem : List String)
    (h : createSession env user ua ip store = (.ok (tok, sid), store1, rem)) :
    sid = mkSessionId user.id env.now env.rand ∧
    store1 = mapSet sid ⟨user.id, sid, tok, env.now, env.now, ua, ip⟩
      (invalidateUserSessions user.id (some sid) store).1 := by
  simp only [createSession] at h
  rcases hg : generateToken env user (some (mkSessionId user.id env.now env.rand)) with e | token
  · rw [hg] at h
    simp at h
  · rw [hg] at h
    simp only [Prod.mk.injEq, Except.ok.injEq] at h
    rcases h with ⟨⟨htok, hsid⟩, hstore, _⟩
    subst htok hsid
    exact ⟨rfl, hstore.symm⟩

/-- C1.  When authenticateUser succeeds, every session left in the
store for the authenticated user is the newly created one: its key is
the fresh session id, and under the Map invariant of unique keys the
store holds at most one session for that user (createSession deleted
every other one before inserting the new session). -/
theorem authenticateUser_single_session (env : AuthEnv)
    (findResult : Except JsError (Option User)) (pwResult : Except JsError Bool)
    (ua ip : Option String) (store : SessionStore) (res : AuthSuccess)
    (store1 : SessionStore)
    (hnd : (store.map Prod.fst).Nodup)
    (hok : authenticateUser env findResult pwResult ua ip store
      = (.ok (some res), store1)) :
    (∀ p ∈ store1, p.2.userId = res.userId → p.1 = res.sessionId) ∧
    (store1.filter (fun p => p.2.userId == res.userId)).length ≤ 1 := by
  rcases findResult with e | ou
  · simp [authenticateUser] at hok
  rcases ou with _ | user
  · simp [authenticateUser] at hok
  rcases pwResult with e | b
  · simp [authenticateUser] at hok
  rcases b with _ | _
  · simp [authenticateUser] at hok
  rcases hcs : createSession env user ua ip store with ⟨ecs, store2, rem⟩
  rcases ecs with e | ts
  · simp [authenticateUser, hcs] at hok
  rcases ts with ⟨tok, sid⟩
  have hok2 := hok
  simp only [authenticateUser, hcs, Prod.mk.injEq, Except.ok.injEq,
    Option.some.injEq] at hok2
  rcases hok2 with ⟨hres, hstore⟩
  rcases createSession_success env user ua ip store tok sid store2 rem hcs with
    ⟨_, hstore2⟩
  have hresu : res.userId = user.id := by rw [← hres]
  have hress : res.sessionId = sid := by rw [← hres]
  have hkeep := invalidateUserSessions_keeps user.id sid store
  have hkey : ∀ p ∈ store2, p.2.userId = user.id → p.1 = sid := by
    rw [hstore2]
    exact mapSet_key_prop sid ⟨user.id, sid, tok, env.now, env.now, ua, ip⟩ _
      (fun s => s.userId = user.id) hkeep
  have hndkept : (((invalidateUserSessions user.id (some sid) store).1).map
      Prod.fst).Nodup := by
    have hsub : (((invalidateUserSessions user.id (some sid) store).1).map
        Prod.fst).Sublist (store.map Prod.fst) :=
      (List.filter_sublist store).map Prod.fst
    exact hnd.sublist hsub
  have hnd2 : (store2.map Prod.fst).Nodup := by
    rw [hstore2]
    exact mapSet_keys_nodup sid _ _ hndkept
  rw [← hstore, hresu, hress]
  exact ⟨hkey, filter_userId_length_le_one store2 sid user.id hnd2 hkey⟩

/-- C1 witness: a login for a user holding two stored sessions leaves
exactly one entry for that user, keyed by the fresh session id. -/
theorem authenticateUser_single_session_witness :
    (∀ p ∈ ([("sB", ⟨"u2", "sB", "tB", 0, 0, none, none⟩),
             ("session_u1_7_r", ⟨"u1", "session_u1_7_r", "tok", 7, 7, none, none⟩)] :
        SessionStore), p.2.userId = "u1" → p.1 = "session_u1_7_r") ∧
    (([("sB", ⟨"u2", "sB", "tB", 0, 0, none, none⟩),
       ("session_u1_7_r", ⟨"u1", "session_u1_7_r", "tok", 7, 7, none, none⟩)] :
        SessionStore).filter (fun p => p.2.userId == "u1")).length ≤ 1 :=
  authenticateUser_single_session ⟨7, "r", some "k", fun _ => "tok"⟩
    (.ok (some ⟨"u1", "e1", "pw", 1, 2⟩)) (.ok true) none none
    [("sA", ⟨"u1", "sA", "tA", 0, 0, none, none⟩),
     ("sB", ⟨"u2", "sB", "tB", 0, 0, none, none⟩),
     ("sC", ⟨"u1", "sC", "tC", 0, 0, none, none⟩)]
    ⟨"u1", "e1", 1, 2, "tok", "session_u1_7_r"⟩
    [("sB", ⟨"u2", "sB", "tB", 0, 0, none, none⟩),
     ("session_u1_7_r", ⟨"u1", "session_u1_7_r", "tok", 7, 7, none, none⟩)]
    (by decide) rfl

/-! ## C3: research jobs never stay pending -/

/-- C3 (amended).  Whatever exception the pipeline raises, the job ends
in the store as failed with exactly the captured message, and the
stored record is never pending once performResearchAsync returns; the
stored error text is non-empty except when the thrown Error itself
carries an empty message (a non-Error throw is captured as the Unknown
error literal). -/
theorem research_job_never_pending (messageId : String)
    (allMessages : List ChatMessage) (userId : String)
    (userLocation : Option String) (env : ResearchEnv) (store : ResearchStore) :
    (∀ e, raisedResearchError env allMessages = some e →
      mapGet messageId
        (performResearchAsync messageId allMessages userId userLocation env store).1
        = some (failedJob messageId (captureMsg e) env.ts2)) ∧
    (∀ job, mapGet messageId
        (performResearchAsync messageId allMessages userId userLocation env store).1
        = some job → job.status ≠ .pending) ∧
    (∀ e, raisedResearchError env allMessages = some e → captureMsg e ≠ "" →
      ∀ job, mapGet messageId
        (performResearchAsync messageId allMessages userId userLocation env store).1
        = some job → job.error ≠ some "") := by
  rcases hllm : env.llm (researchQuery allMessages) with e0 | o
  · refine ⟨?_, ?_, ?_⟩
    · intro e he
      simp only [raisedResearchError, hllm, Option.some.injEq] at he
      subst he
      simp [performResearchAsync, hllm, mapGet_mapSet_self]
    · intro job hjob
      simp only [performResearchAsync, hllm, mapGet_mapSet_self,
        Option.some.injEq] at hjob
      rw [← hjob]
      simp [failedJob]
    · intro e he hne job hjob
      simp only [raisedResearchError, hllm, Option.some.injEq] at he
      subst he
      simp only [performResearchAsync, hllm, mapGet_mapSet_self,
        Option.some.injEq] at hjob
      rw [← hjob]
      simp [failedJob, hne]
  · rcases o with _ | r
    · refine ⟨?_, ?_, ?_⟩
      · intro e he
        simp only [raisedResearchError, hllm, Option.some.injEq] at he
        subst he
        simp [performResearchAsync, hllm, mapGet_mapSet_self, captureMsg]
      · intro job hjob
        simp only [performResearchAsync, hllm, mapGet_mapSet_self,
          Option.some.injEq] at hjob
        rw [← hjob]
        simp [failedJob]
      · intro e he hne job hjob
        simp only [raisedResearchError, hllm, Option.some.injEq] at he
        subst he
        simp only [performResearchAsync, hllm, mapGet_mapSet_self,
          Option.some.injEq] at hjob
        rw [← hjob]
        simp [failedJob, captureMsg]
    · refine ⟨?_, ?_, ?_⟩
      · intro e he
        simp [raisedResearchError, hllm] at he
      · intro job hjob
        simp only [performResearchAsync, hllm, mapGet_mapSet_self,
          Option.some.injEq] at hjob
        rw [← hjob]
        simp
      · intro e he
        simp [raisedResearchError, hllm] at he

/-- C3 witness: an LLM rejection with a real message yields a failed
job carrying that message; a null parsed result yields a failed job
with the fixed non-empty message. -/
theorem research_job_never_pending_witness :
    mapGet "m2" (performResearchAsync "m2" [] "u1" none
      ⟨fun _ => .error ⟨true, "boom"⟩, fun _ => ⟨false, .abortTimeout⟩,
       "t1", "t2", 0, "r"⟩ []).1
      = some (failedJob "m2" (captureMsg ⟨true, "boom"⟩) "t2") :=
  (research_job_never_pending "m2" [] "u1" none
    ⟨fun _ => .error ⟨true, "boom"⟩, fun _ => ⟨false, .abortTimeout⟩,
     "t1", "t2", 0, "r"⟩ []).1 ⟨true, "boom"⟩ rfl

/-- C3 counterexample to the claim as stated: a provider rejection that
is an Error with an empty message is an exception raised inside the
pipeline, yet the stored failed job carries the empty string as its
error message, not a non-empty one. -/
theorem research_job_error_can_be_empty :
    raisedResearchError
      ⟨fun _ => .error ⟨true, ""⟩, fun _ => ⟨false, .abortTimeout⟩,
       "t1", "t2", 0, "r"⟩ [] = some ⟨true, ""⟩ ∧
    mapGet "m1" (performResearchAsync "m1" [] "u1" none
      ⟨fun _ => .error ⟨true, ""⟩, fun _ => ⟨false, .abortTimeout⟩,
       "t1", "t2", 0, "r"⟩ []).1
      = some ⟨"m1", .failed, none, none, none, none, some "", "t2"⟩ :=
  ⟨rfl, rfl⟩

/-! ## C4: provider failures and the returned value -/

/-- C4 (amended).  Any failure of the provider call makes
processChatRequest return success false with the fixed fallback body
and research_pending false; the rate-limit (429) and configuration
(401) conditions map to distinct retry-ability hints, but only in the
logged error message, while the returned value is the same for every
failure kind. -/
theorem chat_provider_error_fallback (env : ChatEnv) (request : ChatRequest)
    (userId : String) (sessionId : Option String) (lastMsg : ChatMessage)
    (f : ChatFail)
    (hlast : request.messages.getLast? = some lastMsg)
    (hfail : env.scope lastMsg.content = .error f) :
    processChatRequest env request userId sessionId =
      .ok ⟨⟨false, fallbackResponse, mkMsgId env.now env.rand, false, env.tsIso⟩,
           none, some (chatErrorMessage f)⟩ ∧
    chatErrorMessage (.apiError 429) ≠ chatErrorMessage (.apiError 401) := by
  constructor
  · simp [processChatRequest, hlast, hfail]
  · decide

/-- C4 witness: a thrown provider error produces the fallback result
and the two hint texts differ. -/
theorem chat_provider_error_fallback_witness :
    processChatRequest ⟨5, "r", "ts", 6, "rb", fun _ => .error (.thrown ⟨true, "x"⟩)⟩
      ⟨[⟨.user, "hi"⟩], none⟩ "u1" none =
      .ok ⟨⟨false, fallbackResponse, mkMsgId 5 "r", false, "ts"⟩,
           none, some (chatErrorMessage (.thrown ⟨true, "x"⟩))⟩ ∧
    chatErrorMessage (.apiError 429) ≠ chatErrorMessage (.apiError 401) :=
  chat_provider_error_fallback ⟨5, "r", "ts", 6, "rb", fun _ => .error (.thrown ⟨true, "x"⟩)⟩
    ⟨[⟨.user, "hi"⟩], none⟩ "u1" none ⟨.user, "hi"⟩ (.thrown ⟨true, "x"⟩) rfl rfl

/-- C4 counterexample to the claim as stated: with identical inputs, a
provider rate-limit failure (status 429) and an authentication failure
(status 401) produce exactly the same returned value, so the caller
cannot distinguish them through it; the returned value is the fallback
failure response in both cases. -/
theorem chat_rate_limit_not_distinguishable :
    (processChatRequest ⟨5, "r", "ts", 6, "rb", fun _ => .error (.apiError 429)⟩
        ⟨[⟨.user, "hi"⟩], none⟩ "u1" none).map ChatTurn.response
      = (processChatRequest ⟨5, "r", "ts", 6, "rb", fun _ => .error (.apiError 401)⟩
        ⟨[⟨.user, "hi"⟩], none⟩ "u1" none).map ChatTurn.response ∧
    (processChatRequest ⟨5, "r", "ts", 6, "rb", fun _ => .error (.apiError 429)⟩
        ⟨[⟨.user, "hi"⟩], none⟩ "u1" none).map ChatTurn.response
      = .ok ⟨false, fallbackResponse, "msg_5_r", false, "ts"⟩ :=
  ⟨rfl, rfl⟩

/-! ## C9: out-of-scope turns create no research job -/

/-- C9.  When the scope decision for the last message answers that no
research is required, processChatRequest returns the fixed fallback
body (decline text, confidence score zero, empty citations) with
success true and research_pending false, schedules no background task,
and consequently the result store never gains an entry for the message
id of this turn. -/
theorem out_of_scope_no_research (env : ChatEnv) (request : ChatRequest)
    (userId : String) (sessionId : Option String) (lastMsg : ChatMessage)
    (hlast : request.messages.getLast? = some lastMsg)
    (hscope : env.scope lastMsg.content = .ok false) :
    processChatRequest env request userId sessionId =
      .ok ⟨⟨true, fallbackResponse, mkMsgId env.now env.rand, false, env.tsIso⟩,
           none, none⟩ ∧
    fallbackResponse.confidence_score = 0 ∧ fallbackResponse.citations = [] ∧
    (∀ turn renv store, processChatRequest env request userId sessionId = .ok turn →
      storeAfterTurn turn renv store = store) ∧
    (∀ turn renv store, processChatRequest env request userId sessionId = .ok turn →
      mapGet (mkMsgId env.now env.rand) store = none →
      mapGet (mkMsgId env.now env.rand) (storeAfterTurn turn renv store) = none) := by
  have hmain : processChatRequest env request userId sessionId =
      .ok ⟨⟨true, fallbackResponse, mkMsgId env.now env.rand, false, env.tsIso⟩,
           none, none⟩ := by
    simp [processChatRequest, hlast, hscope]
  refine ⟨hmain, rfl, rfl, ?_, ?_⟩
  · intro turn renv store hturn
    rw [hmain] at hturn
    simp only [Except.ok.injEq] at hturn
    rw [← hturn]
    rfl
  · intro turn renv store hturn hnone
    rw [hmain] at hturn
    simp only [Except.ok.injEq] at hturn
    rw [← hturn]
    exact hnone

/-- C9 witness: a concrete out-of-scope turn returns the fallback and
leaves an empty result store empty. -/
theorem out_of_scope_no_research_witness :
    processChatRequest ⟨5, "r", "ts", 6, "rb", fun _ => .ok false⟩
      ⟨[⟨.user, "hi"⟩], none⟩ "u1" none =
      .ok ⟨⟨true, fallbackResponse, mkMsgId 5 "r", false, "ts"⟩, none, none⟩ ∧
    fallbackResponse.confidence_score = 0 ∧ fallbackResponse.citations = [] ∧
    (∀ turn renv store,
      processChatRequest ⟨5, "r", "ts", 6, "rb", fun _ => .ok false⟩
        ⟨[⟨.user, "hi"⟩], none⟩ "u1" none = .ok turn →
      storeAfterTurn turn renv store = store) ∧
    (∀ turn renv store,
      processChatRequest ⟨5, "r", "ts", 6, "rb", fun _ => .ok false⟩
        ⟨[⟨.user, "hi"⟩], none⟩ "u1" none = .ok turn →
      mapGet (mkMsgId 5 "r") store = none →
      mapGet (mkMsgId 5 "r") (storeAfterTurn turn renv store) = none) :=
  out_of_scope_no_research ⟨5, "r", "ts", 6, "rb", fun _ => .ok false⟩
    ⟨[⟨.user, "hi"⟩], none⟩ "u1" none ⟨.user, "hi"⟩ rfl rfl

/-! ## C10: empty conversations raise before the try block -/

/-- C10.  processChatRequest reads the content of the last message
before entering its try block, so it propagates a TypeError to its
caller exactly when the messages list is empty; for every non-empty
input every failure is caught and a ChatResponse is returned, so the
TypeError is the only error the caller can see. -/
theorem processChatRequest_empty_messages (env : ChatEnv) (request : ChatRequest)
    (userId : String) (sessionId : Option String) :
    (processChatRequest env request userId sessionId = .error jsTypeError ↔
      request.messages = []) ∧
    (∀ e, processChatRequest env request userId sessionId = .error e →
      e = jsTypeError) := by
  rcases hl : request.messages.getLast? with _ | lastMsg
  · have hnil : request.messages = [] := by
      cases hm : request.messages with
      | nil => rfl
      | cons a l => rw [hm] at hl; simp [List.getLast?_concat] at hl
    refine ⟨⟨fun _ => hnil, fun _ => ?_⟩, fun e he => ?_⟩
    · simp [processChatRequest, hl]
    · simp only [processChatRequest, hl, Except.error.injEq] at he
      rw [he]
  · have hne : request.messages ≠ [] := by
      intro hm
      rw [hm] at hl
      simp at hl
    have hno : ∀ e, processChatRequest env request userId sessionId ≠ .error e := by
      intro e
      rcases hs : env.scope lastMsg.content with f | b
      · simp [processChatRequest, hl, hs]
      · rcases b with _ | _ <;> simp [processChatRequest, hl, hs]
    exact ⟨⟨fun h => absurd h (hno jsTypeError), fun h => absurd h hne⟩,
      fun e he => absurd he (hno e)⟩

/-- C10 witness: the empty request raises the TypeError, a one-message
request does not. -/
theorem processChatRequest_empty_messages_witness :
    processChatRequest ⟨5, "r", "ts", 6, "rb", fun _ => .ok false⟩ ⟨[], none⟩
      "u1" none = .error jsTypeError ∧
    ¬(processChatRequest ⟨5, "r", "ts", 6, "rb", fun _ => .ok false⟩
        ⟨[⟨.user, "hi"⟩], none⟩ "u1" none = .error jsTypeError) :=
  ⟨(processChatRequest_empty_messages ⟨5, "r", "ts", 6, "rb", fun _ => .ok false⟩
      ⟨[], none⟩ "u1" none).1.mpr rfl,
   fun h => by
    have := (processChatRequest_empty_messages ⟨5, "r", "ts", 6, "rb", fun _ => .ok false⟩
      ⟨[⟨.user, "hi"⟩], none⟩ "u1" none).1.mp h
    simp at this⟩

/-! ## C7: unauthenticated connections are isolated -/

/-- C7.  A frame whose type is not auth, received on an unauthenticated
open connection, makes handleMessage reply with the authenticate-first
error to that connection only and leave the whole registry state
(rooms, clients map, connection tags, session store) unchanged; and
every delivery performed by sendToUserRoom targets a connection that is
authenticated and whose socket is open, so an unauthenticated
connection is never delivered a room message. -/
theorem ws_unauthenticated_isolation :
    (∀ (decode : String → Option TokenClaims) (now : Nat) (nowIso : String)
      (handleChat : WSState → Nat → WSMessage → Except JsError (WSState × List WSEvent))
      (st : WSState) (cid : Nat) (c : Conn) (msg : WSMessage),
      mapGet cid st.conns = some c →
      c.isAuthenticated = false →
      msg.type ≠ "auth" →
      c.readyState = WS_OPEN →
      handleMessage decode now nowIso handleChat st cid msg =
        (st, [WSEvent.send cid (mkErrorFrame "Please authenticate first" nowIso)])) ∧
    (∀ (st : WSState) (userId : String) (frame : WSMessage) (now : Nat)
      (ev : WSEvent), ev ∈ (sendToUserRoom st userId frame now).2 →
      ∃ (cid : Nat) (c : Conn), ev = WSEvent.send cid frame ∧
        mapGet cid st.conns = some c ∧
        c.isAuthenticated = true ∧ c.readyState = WS_OPEN) := by
  constructor
  · intro decode now nowIso handleChat st cid c msg hconn hauth htype hopen
    have htypeb : (msg.type == "auth") = false := by
      simp [htype]
    simp [handleMessage, hconn, htypeb, hauth, sendError, sendMessage, hopen]
  · intro st userId frame now ev hev
    rcases hroom : mapGet userId st.userRooms with _ | room
    · simp [sendToUserRoom, hroom] at hev
    · simp only [sendToUserRoom, hroom] at hev
      rcases List.mem_filterMap.mp hev with ⟨cid, _, hf⟩
      rcases hc : mapGet cid st.conns with _ | c
      · rw [hc] at hf
        simp at hf
      · rw [hc] at hf
        by_cases hcond : c.isAuthenticated && c.readyState == WS_OPEN
        · simp only [hcond, if_true, Option.some.injEq] at hf
          have hparts := Bool.and_eq_true_iff.mp hcond
          exact ⟨cid, c, hf.symm, hc, hparts.1, by simpa using hparts.2⟩
        · simp [hcond] at hf

/-- C7 witness: an open unauthenticated connection sending a
user_message frame gets only the error reply with no state change, and
in a room with one authenticated open member and one unauthenticated
member the delivered event targets the authenticated one. -/
theorem ws_unauthenticated_isolation_witness :
    (handleMessage (fun _ => none) 3 "ts"
      (fun st cid _ => .ok (st, [WSEvent.closeSocket cid]))
      ⟨[(1, ⟨none, none, none, false, [], 0, WS_OPEN⟩)], [], [], []⟩ 1
      ⟨"user_message", some "hi", none, "ts", none, none, none⟩ =
      (⟨[(1, ⟨none, none, none, false, [], 0, WS_OPEN⟩)], [], [], []⟩,
       [WSEvent.send 1 (mkErrorFrame "Please authenticate first" "ts")])) ∧
    (∃ (cid : Nat) (c : Conn),
      WSEvent.send 2 (⟨"bot_message", some "x", none, "ts", none, none, none⟩ : WSMessage)
        = WSEvent.send cid (⟨"bot_message", some "x", none, "ts", none, none, none⟩ : WSMessage) ∧
      mapGet cid (⟨[(1, ⟨none, none, none, false, [], 0, WS_OPEN⟩),
                    (2, ⟨some "u1", some "s2", some "room_u1", true, [], 0, WS_OPEN⟩)],
                   [], [("u1", ⟨"room_u1", "u1", [1, 2], 0, 0⟩)], []⟩ : WSState).conns
        = some c ∧
      c.isAuthenticated = true ∧ c.readyState = WS_OPEN) :=
  ⟨ws_unauthenticated_isolation.1 (fun _ => none) 3 "ts"
      (fun st cid _ => .ok (st, [WSEvent.closeSocket cid]))
      ⟨[(1, ⟨none, none, none, false, [], 0, WS_OPEN⟩)], [], [], []⟩ 1
      ⟨none, none, none, false, [], 0, WS_OPEN⟩
      ⟨"user_message", some "hi", none, "ts", none, none, none⟩
      rfl rfl (by decide) rfl,
   ws_unauthenticated_isolation.2
      ⟨[(1, ⟨none, none, none, false, [], 0, WS_OPEN⟩),
        (2, ⟨some "u1", some "s2", some "room_u1", true, [], 0, WS_OPEN⟩)],
       [], [("u1", ⟨"room_u1", "u1", [1, 2], 0, 0⟩)], []⟩
      "u1" ⟨"bot_message", some "x", none, "ts", none, none, none⟩ 9
      (WSEvent.send 2 ⟨"bot_message", some "x", none, "ts", none, none, none⟩)
      (by decide)⟩


/-! ## C8: the research polling loop terminates -/

theorem pollFrom_polls_le_aux (s : Nat → Option JobStatus) (o : Nat → Bool) :
    ∀ a, (pollFrom s o a).polls ≤ maxAttempts - a ∨ (pollFrom s o a).polls = 1 := by
  intro a
  induction a using pollFrom.induct s o with
  | case1 x hx => right; rw [pollFrom.eq_def, hx]
  | case2 x hx => right; rw [pollFrom.eq_def, hx]
  | case3 x h hnc hnf ih =>
    left
    have hA : maxAttempts = 300 := rfl
    rcases hst : s (x + 1) with _ | st
    · rw [pollFrom.eq_def, hst]
      simp only [dif_pos h]
      rcases ih with ih | ih <;> omega
    · rcases st with _ | _ | _
      · rw [pollFrom.eq_def, hst]
        simp only [dif_pos h]
        rcases ih with ih | ih <;> omega
      · exact absurd hst hnc
      · exact absurd hst hnf
  | case4 x h hnc hnf =>
    right
    rcases hst : s (x + 1) with _ | st
    · rw [pollFrom.eq_def, hst]
      simp only [dif_neg h]
    · rcases st with _ | _ | _
      · rw [pollFrom.eq_def, hst]
        simp only [dif_neg h]
      · exact absurd hst hnc
      · exact absurd hst hnf

theorem pollFrom_delays_eq (s : Nat → Option JobStatus) (o : Nat → Bool) :
    ∀ a, ∀ d ∈ (pollFrom s o a).delays, d = pollIntervalMs := by
  intro a
  induction a using pollFrom.induct s o with
  | case1 x hx => rw [pollFrom.eq_def, hx]; intro d hd; simp at hd
  | case2 x hx => rw [pollFrom.eq_def, hx]; intro d hd; simp at hd
  | case3 x h hnc hnf ih =>
    intro d hd
    rcases hst : s (x + 1) with _ | st
    · rw [pollFrom.eq_def, hst] at hd
      simp only [dif_pos h] at hd
      rcases List.mem_cons.mp hd with h0 | h0
      · exact h0
      · exact ih d h0
    · rcases st with _ | _ | _
      · rw [pollFrom.eq_def, hst] at hd
        simp only [dif_pos h] at hd
        rcases List.mem_cons.mp hd with h0 | h0
        · exact h0
        · exact ih d h0
      · exact absurd hst hnc
      · exact absurd hst hnf
  | case4 x h hnc hnf =>
    intro d hd
    rcases hst : s (x + 1) with _ | st
    · rw [pollFrom.eq_def, hst] at hd
      simp only [dif_neg h] at hd
      simp at hd
    · rcases st with _ | _ | _
      · rw [pollFrom.eq_def, hst] at hd
        simp only [dif_neg h] at hd
        simp at hd
      · exact absurd hst hnc
      · exact absurd hst hnf

theorem pollFrom_forever_pending (s : Nat → Option JobStatus) (o : Nat → Bool)
    (hs : ∀ n, s n = some .pending) (ho : ∀ n, o n = true) :
    ∀ a, a < maxAttempts →
      pollFrom s o a =
        ⟨maxAttempts - a, List.replicate (maxAttempts - a - 1) pollIntervalMs,
         .warned⟩ := by
  intro a
  induction a using pollFrom.induct s o with
  | case1 x hx => rw [hs (x + 1)] at hx; simp at hx
  | case2 x hx => rw [hs (x + 1)] at hx; simp at hx
  | case3 x h hnc hnf ih =>
    intro hx
    have hA : maxAttempts = 300 := rfl
    have ih2 := ih h.1
    rw [pollFrom.eq_def, hs (x + 1)]
    simp only [dif_pos h, ih2]
    have h1 : maxAttempts - (x + 1) + 1 = maxAttempts - x := by omega
    have h2 : maxAttempts - x - 1 = (maxAttempts - (x + 1) - 1) + 1 := by omega
    rw [h1, h2, List.replicate_succ]
  | case4 x h hnc hnf =>
    intro hx
    have hA : maxAttempts = 300 := rfl
    have hxe : x + 1 = maxAttempts := by
      rcases not_and_or.mp h with h1 | h1
      · omega
      · exact absurd (ho (x + 1)) h1
    have h1 : maxAttempts - x = 1 := by omega
    have h2 : maxAttempts - x - 1 = 0 := by omega
    rw [pollFrom.eq_def, hs (x + 1)]
    simp only [dif_neg h, h1, h2]
    rfl

/-- C8.  The polling chain performs at most 300 poll attempts; the
initial delay and every rescheduling delay equal the fixed two-second
interval; a job that stays pending forever on an open socket produces
exactly 300 attempts and then the silent warning stop; and a first poll
finding the socket no longer open performs no rescheduling at all and
stops through the same warning branch rather than failing. -/
theorem startResearchPolling_bounded (statusAt : Nat → Option JobStatus)
    (openAt : Nat → Bool) :
    ((pollFrom statusAt openAt 0).polls ≤ maxAttempts) ∧
    ((startResearchPolling statusAt openAt).1 = pollIntervalMs ∧
      pollIntervalMs = 2000 ∧ maxAttempts = 300) ∧
    (∀ d ∈ (pollFrom statusAt openAt 0).delays, d = pollIntervalMs) ∧
    ((∀ n, statusAt n = some .pending) → (∀ n, openAt n = true) →
      pollFrom statusAt openAt 0 =
        ⟨maxAttempts, List.replicate (maxAttempts - 1) pollIntervalMs, .warned⟩) ∧
    (statusAt 1 = some .pending → openAt 1 = false →
      pollFrom statusAt openAt 0 = ⟨1, [], .warned⟩) := by
  refine ⟨?_, ⟨rfl, rfl, rfl⟩, pollFrom_delays_eq statusAt openAt 0, ?_, ?_⟩
  · have := pollFrom_polls_le_aux statusAt openAt 0
    have hA : maxAttempts = 300 := rfl
    omega
  · intro hs ho
    simpa using pollFrom_forever_pending statusAt openAt hs ho 0 (by decide)
  · intro h1 h2
    rw [pollFrom.eq_def, h1]
    have hcond : ¬(0 + 1 < maxAttempts ∧ openAt (0 + 1) = true) := by
      intro hc
      rw [h2] at hc
      exact Bool.false_ne_true hc.2
    simp only [dif_neg hcond]

/-- C8 witness: with a job that never resolves the chain stops after
exactly 300 attempts with the warning, and with a closed socket it
stops after the single poll. -/
theorem startResearchPolling_bounded_witness :
    pollFrom (fun _ => some .pending) (fun _ => true) 0 =
      ⟨maxAttempts, List.replicate (maxAttempts - 1) pollIntervalMs, .warned⟩ ∧
    pollFrom (fun _ => some .pending) (fun _ => false) 0 = ⟨1, [], .warned⟩ :=
  ⟨(startResearchPolling_bounded (fun _ => some .pending) (fun _ => true)).2.2.2.1
      (fun _ => rfl) (fun _ => rfl),
   (startResearchPolling_bounded (fun _ => some .pending) (fun _ => false)).2.2.2.2
      rfl rfl⟩
